import Mathlib

/-!
Shallow embedding of the core transport engine of the xgb X11 client library
(files xgb.go, xgb_help.go and the cookie file of the repository), together
with theorems settling the frozen claims about it.

Machine integers are modelled as Nat with explicit reduction modulo 2 ^ 16 or
2 ^ 32 where the Go code relies on fixed-width wraparound.  Byte buffers are
List Nat.  The long-lived worker goroutines are modelled as the functions
their loop bodies compute under the canonical serialized schedule: one
submission or one wire response is processed to completion at a time.
-/

namespace Xgb

/-- Constant cookieBuffer from xgb.go: the capacity of the cookie channel;
when its length reaches cookieBuffer - 1 the submitter forces a round trip. -/
def cookieBuffer : Nat := 1000

/-! ### Little-endian helpers (xgb_help.go) -/

/-- Put16 from xgb_help.go: buf[0] = byte(v); buf[1] = byte(v >> 8). -/
def Put16 (buf : List Nat) (v : Nat) : List Nat :=
  (buf.set 0 (v % 256)).set 1 ((v >>> 8) % 256)

/-- Put32 from xgb_help.go: writes the four little-endian bytes of v. -/
def Put32 (buf : List Nat) (v : Nat) : List Nat :=
  ((((buf.set 0 (v % 256)).set 1 ((v >>> 8) % 256)).set 2
      ((v >>> 16) % 256)).set 3 ((v >>> 24) % 256))

/-- Get16 from xgb_help.go: v := buf[0]; v |= buf[1] << 8. -/
def Get16 (buf : List Nat) : Nat :=
  buf.getD 0 0 ||| (buf.getD 1 0 <<< 8)

/-- Get32 from xgb_help.go: v := buf[0]; v |= buf[1] << 8; v |= buf[2] << 16;
v |= buf[3] << 24. -/
def Get32 (buf : List Nat) : Nat :=
  ((buf.getD 0 0 ||| (buf.getD 1 0 <<< 8)) ||| (buf.getD 2 0 <<< 16)) |||
    (buf.getD 3 0 <<< 24)

/-! ### SequenceSource (generateSeqIds in xgb.go) -/

/-- One step of the generateSeqIds loop in xgb.go: after sending seqid, if
seqid == 0xFFFF it becomes 0, otherwise it is incremented. -/
def nextSeq (s : Nat) : Nat := if s = 65535 then 0 else s + 1

/-- Value sent on the sequence channel at position n (0-indexed): the loop
starts with seqid = 1 and applies nextSeq after each send. -/
def seqAt : Nat → Nat
  | 0 => 1
  | n + 1 => nextSeq (seqAt n)

/-! ### XidSource (generateXIds in xgb.go) -/

/-- Increment used by generateXIds: mask & -mask in uint32 arithmetic, the
lowest set bit of the resource id mask. -/
def xidInc (mask : Nat) : Nat := mask &&& ((2 ^ 32 - mask) % 2 ^ 32)

/-- One value sent on the xid channel: the id and whether err was non-nil. -/
structure Xid where
  id : Nat
  isError : Bool
deriving DecidableEq

/-- One iteration of the generateXIds loop in xgb.go: if last > 0 and
last >= max - inc + 1 an exhaustion value (id 0, non-nil err) is sent; then,
falling through, last += inc (uint32) and the id (last | base) is sent with a
nil err.  Returns the values sent and the new cursor. -/
def xidIter (base mask last : Nat) : List Xid × Nat :=
  let inc := xidInc mask
  let emitted : List Xid :=
    if 0 < last ∧ mask - inc + 1 ≤ last then [Xid.mk 0 true] else []
  let newLast := (last + inc) % 2 ^ 32
  (emitted ++ [Xid.mk (newLast ||| base) false], newLast)

/-- The xid channel contents after n iterations of the generateXIds loop,
starting from last = 0, together with the final cursor. -/
def xidRun (base mask : Nat) : Nat → List Xid × Nat
  | 0 => ([], 0)
  | n + 1 =>
    let p := xidRun base mask n
    let q := xidIter base mask p.2
    (p.1 ++ q.1, q.2)

/-! ### Sequence assignment to submitted handles (newCookie and sendRequests)

The cookie constructor newCookie in the cookie file initializes the cookie
with Sequence: c.newSequenceId(), pulling one value off the sequence channel;
sendRequests in xgb.go then executes req.cookie.Sequence = c.newSequenceId(),
pulling a second value which becomes the final assigned sequence.  The model
below follows the canonical serialized schedule (each submission is created
and then fully processed by sendRequests before the next begins) for runs
short enough that the cookieBuffer drain never triggers. -/

/-- State of the submission pipeline: how many values have been consumed from
the sequence channel, and the final Sequence field of each submitted cookie,
in submission order. -/
structure SubmitState where
  consumed : Nat
  assigned : List Nat
deriving DecidableEq

/-- One serialized submission: newCookie consumes the stream value at position
consumed (stored into Sequence and then overwritten), and sendRequests
consumes the value at position consumed + 1, which is the assigned sequence. -/
def submitOne (st : SubmitState) : SubmitState :=
  SubmitState.mk (st.consumed + 2) (st.assigned ++ [seqAt (st.consumed + 1)])

/-- State after n serialized submissions on a fresh connection. -/
def submitRun : Nat → SubmitState
  | 0 => SubmitState.mk 0 []
  | n + 1 => submitOne (submitRun n)

/-! ### Handles: cookie modes and their channels (the cookie file) -/

/-- The four delivery modes, determined by the (checked, reply) pair passed to
newCookie: checkedReply = (true, true), uncheckedReply = (false, true),
checkedVoid = (true, false), uncheckedVoid = (false, false). -/
inductive Mode
  | checkedReply
  | uncheckedReply
  | checkedVoid
  | uncheckedVoid
deriving DecidableEq

/-- Whether newCookie allocates a reply channel: reply == true. -/
def hasReplyChan : Mode → Bool
  | Mode.checkedReply => true
  | Mode.uncheckedReply => true
  | Mode.checkedVoid => false
  | Mode.uncheckedVoid => false

/-- Whether newCookie allocates an error channel: checked == true. -/
def hasErrorChan : Mode → Bool
  | Mode.checkedReply => true
  | Mode.uncheckedReply => false
  | Mode.checkedVoid => true
  | Mode.uncheckedVoid => false

/-- Whether newCookie allocates a ping channel: exactly one of checked and
reply is true. -/
def hasPingChan : Mode → Bool
  | Mode.checkedReply => false
  | Mode.uncheckedReply => true
  | Mode.checkedVoid => true
  | Mode.uncheckedVoid => false

/-- A decoded server error as the dispatch loop sees it: the error carries an
error code and the originating sequence number (SequenceId). -/
structure XError where
  code : Nat
  seq : Nat
deriving DecidableEq

/-- A value sent on the event channel (chan eventOrError in xgb.go): a decoded
event (kept as its frame bytes), a decoded error, or any other value of the
empty interface type. -/
inductive EventOrError
  | ev (bytes : List Nat)
  | er (e : XError)
  | other
deriving DecidableEq

/-- A pending cookie as the dispatch loop sees it: its assigned sequence
number and its mode (which determines which channels are non-nil). -/
structure Cookie where
  seq : Nat
  mode : Mode
deriving DecidableEq

/-- Contents of the three buffered (capacity 1) channels of a cookie. -/
structure ChanState where
  replyBuf : Option (List Nat)
  errBuf : Option XError
  pingBuf : Option Bool
deriving DecidableEq

/-- All three channels empty. -/
def ChanState.empty : ChanState := ChanState.mk none none none

/-- A cookie removed from the pending queue by the dispatch walk, the values
delivered into its channels while dispatching, and whether the receiver
logged a BUG line about it. -/
structure Removed where
  cookie : Cookie
  state : ChanState
  logged : Bool
deriving DecidableEq

/-- A response needing dispatch: a decoded error or a reply, each carrying
the sequence number the receiver matches against cookie.Sequence. -/
inductive Response
  | err (seq : Nat) (e : XError)
  | reply (seq : Nat) (bytes : List Nat)
deriving DecidableEq

/-- The sequence number the dispatch walk compares against. -/
def Response.seqNum : Response → Nat
  | Response.err s _ => s
  | Response.reply s _ => s

/-- Result of dispatching one response over the pending queue: the cookies
consumed from the cookie channel (in order) with what was delivered to them,
the values pushed onto the event channel, the cookies still queued, and
whether the walk exhausted the queue without a break (in which case the Go
range loop blocks awaiting further cookies). -/
structure DispatchResult where
  removed : List Removed
  events : List EventOrError
  remaining : List Cookie
  blocked : Bool
deriving DecidableEq

/-- The dispatch walk of readResponses in xgb.go: for cookie := range
cookieChan.  On a sequence match: an error goes to the error channel if one
exists, otherwise onto the event channel (additionally pinging the cookie if
it has a ping channel), and the walk breaks; a reply goes to the reply
channel and the walk breaks, but if the matched cookie has no reply channel
the receiver logs a bug and continues the walk.  On a mismatch the cookie is
retired: checked-with-reply and unchecked-with-reply are logged and dropped,
checked-void is pinged, unchecked-void is silently dropped; the walk
continues. -/
def dispatch (r : Response) : List Cookie → DispatchResult
  | [] => DispatchResult.mk [] [] [] true
  | c :: rest =>
    if c.seq = r.seqNum then
      match r with
      | Response.err _ e =>
        if hasErrorChan c.mode then
          DispatchResult.mk [Removed.mk c (ChanState.mk none (some e) none) false]
            [] rest false
        else
          DispatchResult.mk
            [Removed.mk c
              (ChanState.mk none none (if hasPingChan c.mode then some true else none))
              false]
            [EventOrError.er e] rest false
      | Response.reply _ bytes =>
        if hasReplyChan c.mode then
          DispatchResult.mk [Removed.mk c (ChanState.mk (some bytes) none none) false]
            [] rest false
        else
          let d := dispatch r rest
          DispatchResult.mk (Removed.mk c ChanState.empty true :: d.removed)
            d.events d.remaining d.blocked
    else
      let rc : Removed :=
        match c.mode with
        | Mode.checkedReply => Removed.mk c ChanState.empty true
        | Mode.uncheckedReply => Removed.mk c ChanState.empty true
        | Mode.checkedVoid => Removed.mk c (ChanState.mk none none (some true)) false
        | Mode.uncheckedVoid => Removed.mk c ChanState.empty false
      let d := dispatch r rest
      DispatchResult.mk (rc :: d.removed) d.events d.remaining d.blocked

/-- Retirement table exactly as the specification states it, named separately
so the dispatch walk can be compared against it: a skipped CheckedVoid handle
has its ping endpoint signalled, skipped CheckedReply and UncheckedReply
handles are logged as bugs and dropped without any signal, and skipped
UncheckedVoid handles are silently dropped. -/
def specRetire (c : Cookie) : Removed :=
  match c.mode with
  | Mode.checkedReply => Removed.mk c ChanState.empty true
  | Mode.uncheckedReply => Removed.mk c ChanState.empty true
  | Mode.checkedVoid => Removed.mk c (ChanState.mk none none (some true)) false
  | Mode.uncheckedVoid => Removed.mk c ChanState.empty false

/-- Possible results of cookie.Check in the cookie file. -/
inductive CheckResult
  | misuse
  | blocked
  | gotErr (e : XError)
  | ok
deriving DecidableEq

/-- Check from the cookie file: it is a misuse on a cookie with a reply
channel or without an error channel; otherwise it selects over the error and
ping channels, returning the error or nil respectively, and blocks when
neither has a value. -/
def cookieCheck (c : Cookie) (st : ChanState) : CheckResult :=
  if hasReplyChan c.mode then CheckResult.misuse
  else if hasErrorChan c.mode = false then CheckResult.misuse
  else
    match st.errBuf with
    | some e => CheckResult.gotErr e
    | none =>
      match st.pingBuf with
      | some _ => CheckResult.ok
      | none => CheckResult.blocked

/-! ### Receiver framing (readResponses in xgb.go) -/

/-- A response as classified by byte 0 of a 32-byte frame: 0 is an error
frame, 1 is a reply (carrying the sequence from bytes 2-3 and the full byte
array, header plus extension), anything else is an event frame. -/
inductive RawResponse
  | rerr (frame : List Nat)
  | rreply (seq : Nat) (bytes : List Nat)
  | revent (frame : List Nat)
deriving DecidableEq

/-- Outcome of one iteration of the readResponses read phase over a finite
input: blocked models io.ReadFull waiting for bytes that are not there,
panicked models the slice-bounds panic reachable when the uint32 byte count
32 + size*4 wraps below 32, ok carries the classified response and the
unconsumed input. -/
inductive ReadOutcome
  | blocked
  | panicked
  | ok (r : RawResponse) (rest : List Nat)
deriving DecidableEq

/-- One iteration of readResponses in xgb.go: read exactly 32 bytes; on
byte 0 = 1 take the sequence from Get16(buf[2:]) and the extra length from
Get32(buf[4:]); if the extra length is non-zero allocate
byteCount = 32 + size*4 bytes (uint32 arithmetic), keep the 32-byte header
and read byteCount - 32 further bytes, delivering the concatenation. -/
def readResponse (input : List Nat) : ReadOutcome :=
  if input.length < 32 then ReadOutcome.blocked
  else
    let buf := input.take 32
    let rest := input.drop 32
    let b0 := buf.getD 0 0
    if b0 = 0 then ReadOutcome.ok (RawResponse.rerr buf) rest
    else if b0 = 1 then
      let sq := Get16 (buf.drop 2)
      let size := Get32 (buf.drop 4)
      if 0 < size then
        let byteCount := (32 + size * 4) % 2 ^ 32
        if byteCount < 32 then ReadOutcome.panicked
        else if rest.length < byteCount - 32 then ReadOutcome.blocked
        else
          ReadOutcome.ok
            (RawResponse.rreply sq (buf ++ rest.take (byteCount - 32)))
            (rest.drop (byteCount - 32))
      else ReadOutcome.ok (RawResponse.rreply sq buf) rest
    else ReadOutcome.ok (RawResponse.revent buf) rest

/-! ### Event queue operations (xgb.go) -/

/-- The type switch of processEventOrError in xgb.go: an Event yields
(event, nil), an Error yields (nil, error), anything else is logged and
yields (nil, nil). -/
def processEventOrError : EventOrError → Option (List Nat) × Option XError
  | EventOrError.ev bytes => (some bytes, none)
  | EventOrError.er e => (none, some e)
  | EventOrError.other => (none, none)

/-- PollForEvent from xgb.go over the event channel contents: on an empty
queue the select default returns (nil, nil); otherwise the head is processed
by processEventOrError. -/
def pollForEvent :
    List EventOrError → (Option (List Nat) × Option XError) × List EventOrError
  | [] => ((none, none), [])
  | x :: rest => (processEventOrError x, rest)

/-- WaitForEvent from xgb.go over the event channel contents: blocks (none)
on an empty queue, otherwise processes the head. -/
def waitForEvent :
    List EventOrError →
      Option ((Option (List Nat) × Option XError) × List EventOrError)
  | [] => none
  | x :: rest => some (processEventOrError x, rest)

/-! ### Submitter byte accounting (sendRequests in xgb.go) -/

/-- Modelled from the spec: the generated marshaller getInputFocusRequest is
not among the given sources (only its caller in sendRequests is); per the
specification the drain request is the fixed GetInputFocus request, opcode
43, two 32-bit words, whose length field at bytes 2-3 counts two 4-byte
units. -/
def getInputFocusRequest : List Nat := [43, 0, 2, 0, 0, 0, 0, 0]

/-- Modelled from the spec: the X server is an external collaborator, not
under src.  It numbers each request on the wire in order and answers a
GetInputFocus request with a 32-byte reply whose sequence field is its own
request counter modulo 2 ^ 16 (scenario S3: the server responds to the
drain); void requests elicit no response.  The argument is the 1-based wire
position of the GetInputFocus request. -/
def serverDrainReply (wirePos : Nat) : Response :=
  Response.reply (wirePos % 2 ^ 16) (List.replicate 32 0)

/-- Submitter state for a run of void submissions: how many values have been
pulled from the sequence stream, the cookies sitting in the cookie channel
(in order), the bytes written to the wire, the number of requests written
(which is the server request counter), and whether the submitter is blocked
forever inside a drain wait. -/
structure SendState where
  consumed : Nat
  queue : List Cookie
  written : List Nat
  wireCount : Nat
  stuck : Bool
deriving DecidableEq

/-- The initial submitter state on a fresh connection. -/
def sendInit : SendState := SendState.mk 0 [] [] 0 false

/-- One serialized submission of an unchecked void request through the
sendRequests loop in xgb.go.  The application has already built the cookie
with newCookie, pulling one sequence value (index consumed, immediately
dead); sendRequests pulls another for the final assignment.  When
len(cookieChan) has reached cookieBuffer - 1, sendRequests first builds the
self-owned checked-with-reply drain cookie (its newCookie pulling the value
at index consumed + 1, the explicit overwrite the value at index
consumed + 2, which is the assigned sequence), appends it to the queue,
writes the GetInputFocus request, and calls GetInputFocusCookie.Reply().
That wait returns only if the dispatch of the drain reply (the sole server
response in a void run, numbered per serverDrainReply) delivers reply or
error bytes into the drain cookie; otherwise the submitter blocks forever,
later requests stay in the request channel, and nothing more is written.
If the wait returns, the queue is what the walk left, and the request is
then submitted as in the plain branch. -/
def sendStep (st : SendState) (buf : List Nat) : SendState :=
  if st.stuck then st
  else if st.queue.length = cookieBuffer - 1 then
    let drain := Cookie.mk (seqAt (st.consumed + 2)) Mode.checkedReply
    let d := dispatch (serverDrainReply (st.wireCount + 1)) (st.queue ++ [drain])
    if d.removed.any fun x =>
        x.cookie == drain && (x.state.replyBuf.isSome || x.state.errBuf.isSome)
    then
      SendState.mk (st.consumed + 4)
        (d.remaining ++
          [Cookie.mk (seqAt (st.consumed + 3)) Mode.uncheckedVoid])
        (st.written ++ getInputFocusRequest ++ buf) (st.wireCount + 2) false
    else
      SendState.mk (st.consumed + 3) d.remaining
        (st.written ++ getInputFocusRequest) (st.wireCount + 1) true
  else
    SendState.mk (st.consumed + 2)
      (st.queue ++ [Cookie.mk (seqAt (st.consumed + 1)) Mode.uncheckedVoid])
      (st.written ++ buf) (st.wireCount + 1) false

/-- The sendRequests loop over a list of submitted request buffers. -/
def sendRun (st : SendState) (bufs : List (List Nat)) : SendState :=
  bufs.foldl sendStep st

/-! ### Concrete inputs used by counterexamples and witnesses -/

/-- A 32-byte reply frame whose extra-length field (bytes 4-7, little endian)
holds 2 ^ 30, making the uint32 byte count 32 + 4 * 2 ^ 30 wrap to 32. -/
def c3CexFrame : List Nat := [1, 0, 0, 0, 0, 0, 0, 64] ++ List.replicate 24 0

/-- A reply frame with extra length 1 followed by its four extension bytes. -/
def c3WitInput : List Nat :=
  [1, 0, 7, 0, 1, 0, 0, 0] ++ List.replicate 24 0 ++ [9, 9, 9, 9]

end Xgb

namespace Xgb

/-! ### Theorems -/

/-- Closed form of the sequence stream: the value at 0-indexed position n is
(n + 1) mod 2 ^ 16. -/
theorem seqAt_mod (n : Nat) : seqAt n = (n + 1) % 2 ^ 16 := by
  induction n with
  | zero => rfl
  | succ n ih =>
    show nextSeq (seqAt n) = (n + 2) % 2 ^ 16
    rw [ih, nextSeq]
    split <;> omega

/-- C8: the sequence stream starts at 1, increments by one and wraps from
0xFFFF to 0, so the value at 0-indexed position n is (n + 1) mod 2 ^ 16;
equivalently the n-th value counting from 1 is n mod 2 ^ 16. -/
theorem C8_sequence_stream (n : Nat) : seqAt n = (n + 1) % 2 ^ 16 :=
  seqAt_mod n

/-- C1 fails as the code stands: evaluating the submission pipeline at the
failing input (two serialized submissions on a fresh connection) shows that
four values of the sequence stream are consumed while only 2 and 4 are
assigned; the values 1 and 3, pulled by newCookie and then overwritten by
sendRequests, are left unassigned, and consecutive assigned sequences differ
by two instead of one. -/
theorem C1_sequence_double_consumption :
    (submitRun 2).assigned = [2, 4] ∧ (submitRun 2).consumed = 4 ∧
    seqAt 0 = 1 ∧ seqAt 2 = 3 := by decide

/-- C4 is false as stated: with base 0 and mask 56 (increment 8), the first
exhaustion signal appears at emission index 7, yet the very next emission
(index 8) is a non-exhaustion id 64, because generateXIds falls through
after sending the exhaustion value and still increments and sends last|base. -/
theorem C4_counterexample :
    (xidRun 0 56 8).1.getD 7 (Xid.mk 0 false) = Xid.mk 0 true ∧
    (xidRun 0 56 8).1.getD 8 (Xid.mk 0 true) = Xid.mk 64 false ∧
    (xidRun 0 56 8).1.length = 9 := by decide

/-- C4 amended: once the cursor satisfies last > 0 and
last >= mask - inc + 1, the iteration emits the exhaustion signal with
sentinel id 0 followed immediately by a non-exhaustion id
((last + inc) mod 2 ^ 32) | base, the loop having fallen through; exhaustion
signals therefore alternate with wrapped ordinary ids while the condition
persists, rather than every subsequent emission signalling exhaustion. -/
theorem C4_amended_exhaustion (base mask last : Nat)
    (h1 : 0 < last) (h2 : mask - xidInc mask + 1 ≤ last) :
    (xidIter base mask last).1 =
      [Xid.mk 0 true,
       Xid.mk (((last + xidInc mask) % 2 ^ 32) ||| base) false] ∧
    (xidIter base mask last).2 = (last + xidInc mask) % 2 ^ 32 := by
  constructor <;> simp [xidIter, h1, h2]

/-- Witness for the amended C4 theorem at base 0, mask 56, last 56. -/
theorem C4_amended_exhaustion_witness :
    0 < 56 ∧ 56 - xidInc 56 + 1 ≤ 56 ∧
    (xidIter 0 56 56).1 =
      [Xid.mk 0 true, Xid.mk (((56 + xidInc 56) % 2 ^ 32) ||| 0) false] :=
  ⟨by decide, by decide, (C4_amended_exhaustion 0 56 56 (by decide) (by decide)).1⟩

/-- C10: WaitForEvent and PollForEvent never return both a non-nil event and
a non-nil error; every delivered value is (event, nil), (nil, error), or, for
a buffered value that is neither an event nor an error, (nil, nil), which for
PollForEvent coincides with the empty-queue result. -/
theorem C10_event_error_exclusivity :
    (∀ (q : List EventOrError)
        (p : (Option (List Nat) × Option XError) × List EventOrError),
        waitForEvent q = some p → p.1.1 = none ∨ p.1.2 = none) ∧
    (∀ q : List EventOrError,
        (pollForEvent q).1.1 = none ∨ (pollForEvent q).1.2 = none) ∧
    (∀ x : EventOrError,
        (∃ b, processEventOrError x = (some b, none)) ∨
        (∃ e, processEventOrError x = (none, some e)) ∨
        (x = EventOrError.other ∧ processEventOrError x = (none, none))) ∧
    processEventOrError EventOrError.other = (pollForEvent []).1 := by
  refine ⟨?_, ?_, ?_, rfl⟩
  · intro q p hp
    cases q with
    | nil => simp [waitForEvent] at hp
    | cons x rest =>
      simp only [waitForEvent, Option.some.injEq] at hp
      cases hp
      cases x <;> simp [processEventOrError]
  · intro q
    cases q with
    | nil => simp [pollForEvent]
    | cons x rest => cases x <;> simp [pollForEvent, processEventOrError]
  · intro x
    cases x with
    | ev b => exact Or.inl ⟨b, rfl⟩
    | er e => exact Or.inr (Or.inl ⟨e, rfl⟩)
    | other => exact Or.inr (Or.inr ⟨rfl, rfl⟩)

/-- Witness for the C10 theorem: the first conjunct applied to the
one-element queue holding a value that is neither an event nor an error. -/
theorem C10_event_error_exclusivity_witness :
    waitForEvent [EventOrError.other] =
      some (((none, none) : Option (List Nat) × Option XError),
        ([] : List EventOrError)) ∧
    ((((none, none) : Option (List Nat) × Option XError),
        ([] : List EventOrError)).1.1 = none ∨
      (((none, none) : Option (List Nat) × Option XError),
        ([] : List EventOrError)).1.2 = none) :=
  ⟨rfl, C10_event_error_exclusivity.1 [EventOrError.other] _ rfl⟩

/-- Unfolding of the dispatch walk when the head cookie does not match the
sequence of the response: the head is retired per the skip table and the
walk continues. -/
theorem dispatch_cons_ne (r : Response) (c : Cookie) (rest : List Cookie)
    (h : ¬ c.seq = r.seqNum) :
    dispatch r (c :: rest) =
      DispatchResult.mk (specRetire c :: (dispatch r rest).removed)
        (dispatch r rest).events (dispatch r rest).remaining
        (dispatch r rest).blocked := by
  simp only [dispatch, if_neg h, specRetire]

/-- When no queued cookie matches the response, the walk retires every
cookie per the skip table, pushes nothing onto the event channel, and
exhausts the queue, leaving the range loop blocked. -/
theorem dispatch_no_match (r : Response) (q : List Cookie)
    (h : ∀ c ∈ q, c.seq ≠ r.seqNum) :
    dispatch r q = DispatchResult.mk (q.map specRetire) [] [] true := by
  induction q with
  | nil => rfl
  | cons c rest ih =>
    have hc : ¬ c.seq = r.seqNum := h c (by simp)
    have hrest : ∀ x ∈ rest, x.seq ≠ r.seqNum := fun x hx => h x (by simp [hx])
    rw [dispatch_cons_ne r c rest hc, ih hrest]
    simp

/-- The skip table retires a cookie to a record carrying that cookie. -/
theorem specRetire_cookie (c : Cookie) : (specRetire c).cookie = c := by
  obtain ⟨s, m⟩ := c
  cases m <;> rfl

/-- Every cookie the dispatch walk removes whose sequence differs from the
response sequence is retired exactly per the skip table. -/
theorem dispatch_skip_conforms (r : Response) (q : List Cookie) :
    ∀ x ∈ (dispatch r q).removed, x.cookie.seq ≠ r.seqNum →
      x = specRetire x.cookie := by
  induction q with
  | nil => intro x hx; simp [dispatch] at hx
  | cons c rest ih =>
    intro x hx hne
    by_cases hc : c.seq = r.seqNum
    · cases r with
      | err s e =>
        simp only [Response.seqNum] at hc
        by_cases he : hasErrorChan c.mode
        · simp only [dispatch, Response.seqNum, if_pos hc, he, if_true,
            List.mem_singleton] at hx
          subst hx; simp only [Response.seqNum] at hne; exact absurd hc hne
        · simp only [dispatch, Response.seqNum, if_pos hc,
            Bool.not_eq_true] at hx
          rw [if_neg he] at hx
          simp only [List.mem_singleton] at hx
          subst hx; simp only [Response.seqNum] at hne; exact absurd hc hne
      | reply s bytes =>
        simp only [Response.seqNum] at hc
        by_cases hr : hasReplyChan c.mode
        · simp only [dispatch, Response.seqNum, if_pos hc, hr, if_true,
            List.mem_singleton] at hx
          subst hx; simp only [Response.seqNum] at hne; exact absurd hc hne
        · simp only [dispatch, Response.seqNum, if_pos hc,
            Bool.not_eq_true] at hx
          rw [if_neg hr] at hx
          simp only [List.mem_cons] at hx
          rcases hx with hx | hx
          · subst hx; simp only [Response.seqNum] at hne; exact absurd hc hne
          · exact ih x hx hne
    · rw [dispatch_cons_ne r c rest hc] at hx
      simp only [List.mem_cons] at hx
      rcases hx with hx | hx
      · subst hx; rw [specRetire_cookie]
      · exact ih x hx hne

/-- Unfolding of the dispatch walk when the head cookie matches an error
response: the error goes into the error channel when one exists, otherwise
onto the event channel with an additional ping when a ping channel exists;
either way the walk breaks. -/
theorem dispatch_match_err (s : Nat) (e : XError) (c : Cookie)
    (rest : List Cookie) (hc : c.seq = s) :
    dispatch (Response.err s e) (c :: rest) =
      if hasErrorChan c.mode then
        DispatchResult.mk
          [Removed.mk c (ChanState.mk none (some e) none) false] [] rest false
      else
        DispatchResult.mk
          [Removed.mk c
            (ChanState.mk none none
              (if hasPingChan c.mode then some true else none)) false]
          [EventOrError.er e] rest false := by
  simp only [dispatch, Response.seqNum, if_pos hc]

/-- Unfolding of the dispatch walk when the head cookie matches a reply: the
bytes go into the reply channel and the walk breaks, unless the cookie has
no reply channel, in which case the receiver logs a bug, drops the cookie,
and continues walking the rest of the queue. -/
theorem dispatch_match_reply (s : Nat) (bytes : List Nat) (c : Cookie)
    (rest : List Cookie) (hc : c.seq = s) :
    dispatch (Response.reply s bytes) (c :: rest) =
      if hasReplyChan c.mode then
        DispatchResult.mk
          [Removed.mk c (ChanState.mk (some bytes) none none) false] [] rest false
      else
        DispatchResult.mk
          (Removed.mk c ChanState.empty true ::
            (dispatch (Response.reply s bytes) rest).removed)
          (dispatch (Response.reply s bytes) rest).events
          (dispatch (Response.reply s bytes) rest).remaining
          (dispatch (Response.reply s bytes) rest).blocked := by
  simp only [dispatch, Response.seqNum, if_pos hc]

/-- C5: every handle the dispatch walk skips is removed and retired per its
mode: CheckedVoid is pinged (so Check returns nil), CheckedReply and
UncheckedReply are logged as bugs and dropped without any signal,
UncheckedVoid is dropped silently; in particular, for three CheckedVoid
handles with sequences 10, 11, 12 and a server error for sequence 12, Check
on handles 10 and 11 returns nil and Check on handle 12 returns the decoded
error. -/
theorem C5_skip_retirement :
    (∀ (r : Response) (q : List Cookie) (x : Removed),
        x ∈ (dispatch r q).removed → x.cookie.seq ≠ r.seqNum →
        x = specRetire x.cookie) ∧
    (∀ c : Cookie, c.mode = Mode.checkedVoid →
        (specRetire c).state.pingBuf = some true ∧
        cookieCheck c (specRetire c).state = CheckResult.ok) ∧
    (∀ c : Cookie, c.mode = Mode.checkedReply ∨ c.mode = Mode.uncheckedReply →
        (specRetire c).state = ChanState.empty ∧ (specRetire c).logged = true) ∧
    (∀ c : Cookie, c.mode = Mode.uncheckedVoid →
        (specRetire c).state = ChanState.empty ∧
        (specRetire c).logged = false) ∧
    ((dispatch (Response.err 12 (XError.mk 8 12))
        [Cookie.mk 10 Mode.checkedVoid, Cookie.mk 11 Mode.checkedVoid,
         Cookie.mk 12 Mode.checkedVoid]).removed =
      [Removed.mk (Cookie.mk 10 Mode.checkedVoid)
          (ChanState.mk none none (some true)) false,
        Removed.mk (Cookie.mk 11 Mode.checkedVoid)
          (ChanState.mk none none (some true)) false,
        Removed.mk (Cookie.mk 12 Mode.checkedVoid)
          (ChanState.mk none (some (XError.mk 8 12)) none) false] ∧
      cookieCheck (Cookie.mk 10 Mode.checkedVoid)
          (ChanState.mk none none (some true)) = CheckResult.ok ∧
      cookieCheck (Cookie.mk 11 Mode.checkedVoid)
          (ChanState.mk none none (some true)) = CheckResult.ok ∧
      cookieCheck (Cookie.mk 12 Mode.checkedVoid)
          (ChanState.mk none (some (XError.mk 8 12)) none) =
        CheckResult.gotErr (XError.mk 8 12)) := by
  refine ⟨dispatch_skip_conforms, ?_, ?_, ?_, by decide⟩
  · intro c hm
    obtain ⟨s, m⟩ := c
    cases hm
    exact ⟨rfl, rfl⟩
  · intro c hm
    obtain ⟨s, m⟩ := c
    rcases hm with hm | hm <;> cases hm <;> exact ⟨rfl, rfl⟩
  · intro c hm
    obtain ⟨s, m⟩ := c
    cases hm
    exact ⟨rfl, rfl⟩

/-- Witness for the C5 theorem: the skip conjunct applied to the scenario
queue at the removed record for handle 10. -/
theorem C5_skip_retirement_witness :
    Removed.mk (Cookie.mk 10 Mode.checkedVoid)
        (ChanState.mk none none (some true)) false ∈
      (dispatch (Response.err 12 (XError.mk 8 12))
        [Cookie.mk 10 Mode.checkedVoid, Cookie.mk 11 Mode.checkedVoid,
         Cookie.mk 12 Mode.checkedVoid]).removed ∧
    Removed.mk (Cookie.mk 10 Mode.checkedVoid)
        (ChanState.mk none none (some true)) false =
      specRetire (Cookie.mk 10 Mode.checkedVoid) :=
  ⟨by decide,
    C5_skip_retirement.1 (Response.err 12 (XError.mk 8 12))
      [Cookie.mk 10 Mode.checkedVoid, Cookie.mk 11 Mode.checkedVoid,
        Cookie.mk 12 Mode.checkedVoid] _ (by decide) (by decide)⟩

/-- C6: when a decoded error matches a queued handle, the error is delivered
into its error endpoint when one exists (and nothing reaches the event
channel); otherwise the error is pushed onto the event channel and the
handle is pinged when it has a ping endpoint.  In particular for an
UncheckedReply request with sequence 7 answered by an error for sequence 7,
the ping fires and WaitForEvent returns the decoded error next. -/
theorem C6_error_delivery :
    (∀ (s : Nat) (e : XError) (q : List Cookie) (x : Removed),
        x ∈ (dispatch (Response.err s e) q).removed → x.cookie.seq = s →
        (hasErrorChan x.cookie.mode = true →
          x.state.errBuf = some e ∧
          (dispatch (Response.err s e) q).events = []) ∧
        (hasErrorChan x.cookie.mode = false →
          (dispatch (Response.err s e) q).events = [EventOrError.er e] ∧
          x.state.pingBuf =
            (if hasPingChan x.cookie.mode then some true else none))) ∧
    ((dispatch (Response.err 7 (XError.mk 3 7))
        [Cookie.mk 7 Mode.uncheckedReply]).removed =
      [Removed.mk (Cookie.mk 7 Mode.uncheckedReply)
          (ChanState.mk none none (some true)) false] ∧
      (dispatch (Response.err 7 (XError.mk 3 7))
        [Cookie.mk 7 Mode.uncheckedReply]).events =
        [EventOrError.er (XError.mk 3 7)] ∧
      waitForEvent [EventOrError.er (XError.mk 3 7)] =
        some ((none, some (XError.mk 3 7)), [])) := by
  constructor
  · intro s e q
    induction q with
    | nil => intro x hx; simp [dispatch] at hx
    | cons c rest ih =>
      intro x hx hxs
      by_cases hc : c.seq = s
      · rw [dispatch_match_err s e c rest hc] at hx ⊢
        by_cases he : hasErrorChan c.mode = true
        · rw [if_pos he] at hx ⊢
          simp only [List.mem_singleton] at hx
          subst hx
          refine ⟨fun _ => ⟨rfl, rfl⟩, fun hf => ?_⟩
          rw [he] at hf; cases hf
        · rw [if_neg he] at hx ⊢
          simp only [List.mem_singleton] at hx
          subst hx
          refine ⟨fun ht => ?_, fun _ => ⟨rfl, rfl⟩⟩
          exact absurd ht he
      · rw [dispatch_cons_ne (Response.err s e) c rest
          (by simpa [Response.seqNum] using hc)] at hx ⊢
        simp only [List.mem_cons] at hx
        rcases hx with hx | hx
        · subst hx
          rw [specRetire_cookie] at hxs
          exact absurd hxs hc
        · exact ih x hx hxs
  · exact ⟨by decide, by decide, rfl⟩

/-- Witness for the C6 theorem: the delivery conjunct applied to the
scenario queue of the single UncheckedReply handle with sequence 7. -/
theorem C6_error_delivery_witness :
    Removed.mk (Cookie.mk 7 Mode.uncheckedReply)
        (ChanState.mk none none (some true)) false ∈
      (dispatch (Response.err 7 (XError.mk 3 7))
        [Cookie.mk 7 Mode.uncheckedReply]).removed ∧
    ((dispatch (Response.err 7 (XError.mk 3 7))
        [Cookie.mk 7 Mode.uncheckedReply]).events =
      [EventOrError.er (XError.mk 3 7)] ∧
      (Removed.mk (Cookie.mk 7 Mode.uncheckedReply)
          (ChanState.mk none none (some true)) false).state.pingBuf =
        (if hasPingChan
            (Removed.mk (Cookie.mk 7 Mode.uncheckedReply)
              (ChanState.mk none none (some true)) false).cookie.mode
          then some true else none)) :=
  ⟨by decide,
    (C6_error_delivery.1 7 (XError.mk 3 7) [Cookie.mk 7 Mode.uncheckedReply]
      _ (by decide) (by decide)).2 (by decide)⟩

/-- C7 is false as stated: dispatching a reply with sequence 5 at a queue
whose head is a CheckedVoid handle with sequence 5 (no reply endpoint) logs
a bug and drops the reply, but the walk does not end there: it also removes
the following handle with sequence 6 (pinging it per the skip table),
exhausts the queue, and leaves the receive loop blocked awaiting further
queued handles. -/
theorem C7_counterexample :
    dispatch (Response.reply 5 (List.replicate 32 0))
        [Cookie.mk 5 Mode.checkedVoid, Cookie.mk 6 Mode.checkedVoid] =
      DispatchResult.mk
        [Removed.mk (Cookie.mk 5 Mode.checkedVoid) ChanState.empty true,
          Removed.mk (Cookie.mk 6 Mode.checkedVoid)
            (ChanState.mk none none (some true)) false]
        [] [] true := by decide

/-- C7 amended: when a reply matches a queued handle that has no reply
endpoint, the receiver logs a bug and drops both the reply and that handle
with no signal, but dispatch does not end there: the walk continues past the
matched handle, and when no later handle carries the same sequence it
retires every remaining handle per the skip table, empties the queue, and
blocks awaiting further queued handles. -/
theorem C7_amended_reply_walk (s : Nat) (bytes : List Nat) (c : Cookie)
    (q : List Cookie) (hseq : c.seq = s) (hnr : hasReplyChan c.mode = false) :
    (dispatch (Response.reply s bytes) (c :: q)).removed =
      Removed.mk c ChanState.empty true ::
        (dispatch (Response.reply s bytes) q).removed ∧
    ((∀ c2 ∈ q, c2.seq ≠ s) →
      dispatch (Response.reply s bytes) (c :: q) =
        DispatchResult.mk
          (Removed.mk c ChanState.empty true :: q.map specRetire)
          [] [] true) := by
  have hcond : ¬ hasReplyChan c.mode = true := by rw [hnr]; simp
  constructor
  · rw [dispatch_match_reply s bytes c q hseq, if_neg hcond]
  · intro hno
    rw [dispatch_match_reply s bytes c q hseq, if_neg hcond,
      dispatch_no_match (Response.reply s bytes) q
        (by simpa [Response.seqNum] using hno)]

/-- Witness for the amended C7 theorem at the counterexample queue. -/
theorem C7_amended_reply_walk_witness :
    (Cookie.mk 5 Mode.checkedVoid).seq = 5 ∧
    hasReplyChan (Cookie.mk 5 Mode.checkedVoid).mode = false ∧
    (dispatch (Response.reply 5 (List.replicate 32 0))
        [Cookie.mk 5 Mode.checkedVoid, Cookie.mk 6 Mode.checkedVoid]).removed =
      Removed.mk (Cookie.mk 5 Mode.checkedVoid) ChanState.empty true ::
        (dispatch (Response.reply 5 (List.replicate 32 0))
          [Cookie.mk 6 Mode.checkedVoid]).removed :=
  ⟨rfl, rfl,
    (C7_amended_reply_walk 5 (List.replicate 32 0)
      (Cookie.mk 5 Mode.checkedVoid) [Cookie.mk 6 Mode.checkedVoid]
      rfl rfl).1⟩

/-- The skip table never places anything in a reply or error channel. -/
theorem specRetire_no_signal (c : Cookie) :
    (specRetire c).state.replyBuf = none ∧
    (specRetire c).state.errBuf = none := by
  obtain ⟨s, m⟩ := c
  cases m <;> exact ⟨rfl, rfl⟩

/-- The dispatch walk never delivers reply or error bytes into a cookie
whose sequence differs from that of the response being dispatched. -/
theorem dispatch_no_signal_of_ne (r : Response) (q : List Cookie)
    (c : Cookie) (hne : c.seq ≠ r.seqNum) :
    ((dispatch r q).removed.any fun x =>
      x.cookie == c && (x.state.replyBuf.isSome || x.state.errBuf.isSome)) =
      false := by
  rw [List.any_eq_false]
  intro x hx
  by_cases hxc : x.cookie = c
  · have hxs : x.cookie.seq ≠ r.seqNum := by rw [hxc]; exact hne
    have hform := dispatch_skip_conforms r q x hx hxs
    have hstate : x.state = (specRetire x.cookie).state :=
      congrArg Removed.state hform
    have hns := specRetire_no_signal x.cookie
    simp [hstate, hns.1, hns.2]
  · simp [hxc]

/-- While the submitter is unblocked and the queue length stays below
cookieBuffer - 1, a run of void submissions writes exactly the submitted
buffers in order; per submission the queue grows by one cookie, two
sequence values are consumed, and one request goes onto the wire. -/
theorem sendRun_void_no_drain (bufs : List (List Nat)) (st : SendState)
    (hs : st.stuck = false)
    (h : st.queue.length + bufs.length ≤ cookieBuffer - 1) :
    (sendRun st bufs).stuck = false ∧
    (sendRun st bufs).queue.length = st.queue.length + bufs.length ∧
    (sendRun st bufs).consumed = st.consumed + 2 * bufs.length ∧
    (sendRun st bufs).written = st.written ++ bufs.flatten ∧
    (sendRun st bufs).wireCount = st.wireCount + bufs.length := by
  induction bufs generalizing st with
  | nil => simp [sendRun, hs]
  | cons b rest ih =>
    have hnotstuck : ¬ st.stuck = true := by rw [hs]; simp
    have hne : ¬ st.queue.length = cookieBuffer - 1 := by
      simp only [cookieBuffer, List.length_cons] at h ⊢
      omega
    have hstep : sendStep st b =
        SendState.mk (st.consumed + 2)
          (st.queue ++ [Cookie.mk (seqAt (st.consumed + 1)) Mode.uncheckedVoid])
          (st.written ++ b) (st.wireCount + 1) false := by
      rw [sendStep, if_neg hnotstuck, if_neg hne]
    have hrw : sendRun st (b :: rest) = sendRun (sendStep st b) rest := rfl
    rw [hrw, hstep]
    obtain ⟨i1, i2, i3, i4, i5⟩ := ih
      (SendState.mk (st.consumed + 2)
        (st.queue ++ [Cookie.mk (seqAt (st.consumed + 1)) Mode.uncheckedVoid])
        (st.written ++ b) (st.wireCount + 1) false)
      rfl
      (by simp at h ⊢; omega)
    refine ⟨i1, ?_, ?_, ?_, ?_⟩
    · rw [i2]; simp; omega
    · rw [i3]; simp; omega
    · rw [i4]; simp
    · rw [i5]; simp; omega

/-- A drain whose self-owned cookie carries a sequence different from the
sequence of the server reply to the GetInputFocus request leaves the
submitter stuck: the drain request is written, the dispatch walk consumes
the queue without signalling the drain cookie, Reply() never returns, and
the pending request buffer is never written. -/
theorem sendStep_drain_stuck (st : SendState) (buf : List Nat)
    (hs : st.stuck = false) (hq : st.queue.length = cookieBuffer - 1)
    (hne : seqAt (st.consumed + 2) ≠ (st.wireCount + 1) % 2 ^ 16) :
    sendStep st buf = SendState.mk (st.consumed + 3)
      (dispatch (serverDrainReply (st.wireCount + 1))
        (st.queue ++
          [Cookie.mk (seqAt (st.consumed + 2)) Mode.checkedReply])).remaining
      (st.written ++ getInputFocusRequest) (st.wireCount + 1) true := by
  have hnotstuck : ¬ st.stuck = true := by rw [hs]; simp
  have hne2 : (Cookie.mk (seqAt (st.consumed + 2)) Mode.checkedReply).seq ≠
      (serverDrainReply (st.wireCount + 1)).seqNum := by
    simpa [serverDrainReply, Response.seqNum] using hne
  rw [sendStep, if_neg hnotstuck, if_pos hq]
  dsimp only
  rw [dispatch_no_signal_of_ne (serverDrainReply (st.wireCount + 1))
    (st.queue ++ [Cookie.mk (seqAt (st.consumed + 2)) Mode.checkedReply])
    (Cookie.mk (seqAt (st.consumed + 2)) Mode.checkedReply) hne2]
  simp

/-- C2 fails on the code: for any run of cookieBuffer void submissions from
a fresh connection, the submitter writes the first cookieBuffer - 1 buffers,
then injects the 8-byte GetInputFocus drain and blocks forever waiting for
its reply: the drain cookie is assigned sequence 2001 (the stream having
been consumed twice per request, C1) while the server numbers the drain
reply 1000, so the dispatch walk retires the drain cookie without any
signal and the final buffer is never written.  The total written is the sum
of the first cookieBuffer - 1 buffer lengths plus 8, not the sum of all
cookieBuffer buffer lengths plus 8: with 1000 four-byte buffers the code
writes 4004 bytes where the claim demands 4008. -/
theorem C2_drain_deadlock :
    (∀ bufs : List (List Nat), bufs.length = cookieBuffer →
      (sendRun sendInit bufs).stuck = true ∧
      (sendRun sendInit bufs).written =
        (bufs.take (cookieBuffer - 1)).flatten ++ getInputFocusRequest ∧
      (sendRun sendInit bufs).written.length =
        ((bufs.take (cookieBuffer - 1)).map List.length).sum +
          getInputFocusRequest.length) ∧
    (sendRun sendInit
        (List.replicate cookieBuffer ([0, 0, 0, 0] : List Nat))).written.length
      = 4004 ∧
    ((List.replicate cookieBuffer ([0, 0, 0, 0] : List Nat)).map
        List.length).sum + getInputFocusRequest.length = 4008 ∧
    (4004 : Nat) ≠ 4008 := by
  have main : ∀ bufs : List (List Nat), bufs.length = cookieBuffer →
      (sendRun sendInit bufs).stuck = true ∧
      (sendRun sendInit bufs).written =
        (bufs.take (cookieBuffer - 1)).flatten ++ getInputFocusRequest ∧
      (sendRun sendInit bufs).written.length =
        ((bufs.take (cookieBuffer - 1)).map List.length).sum +
          getInputFocusRequest.length := by
    intro bufs h
    obtain ⟨b, hb⟩ : ∃ b, bufs.drop 999 = [b] := by
      apply List.length_eq_one.mp
      rw [List.length_drop, h]
      rfl
    have key : bufs.take 999 ++ [b] = bufs := by
      rw [← hb, List.take_append_drop]
    have hl : (bufs.take 999).length = 999 := by
      rw [List.length_take, h]
      rfl
    obtain ⟨p1, p2, p3, p4, p5⟩ :=
      sendRun_void_no_drain (bufs.take 999) sendInit rfl
        (by rw [hl]; decide)
    set st1 := sendRun sendInit (bufs.take 999) with hst1
    have hq1 : st1.queue.length = cookieBuffer - 1 := by
      rw [p2, hl]; decide
    have hc1 : st1.consumed = 1998 := by rw [p3, hl]; decide
    have hw1 : st1.wireCount = 999 := by rw [p5, hl]; decide
    have hwr1 : st1.written = (bufs.take 999).flatten := by
      rw [p4]; simp [sendInit]
    have hseq : seqAt (st1.consumed + 2) ≠ (st1.wireCount + 1) % 2 ^ 16 := by
      rw [hc1, hw1, seqAt_mod]
      decide
    have hstep := sendStep_drain_stuck st1 b p1 hq1 hseq
    have hrun : sendRun sendInit bufs = sendStep st1 b := by
      conv_lhs => rw [← key]
      show (bufs.take 999 ++ [b]).foldl sendStep sendInit = _
      rw [List.foldl_append]
      rfl
    have h999 : cookieBuffer - 1 = 999 := by decide
    rw [hrun, hstep, h999]
    refine ⟨rfl, by rw [hwr1], ?_⟩
    rw [hwr1]
    simp [List.length_flatten]
  refine ⟨main, ?_, ?_, by decide⟩
  · obtain ⟨-, -, hlen⟩ := main (List.replicate cookieBuffer [0, 0, 0, 0])
      (List.length_replicate cookieBuffer [0, 0, 0, 0])
    rw [hlen]
    have h999 : cookieBuffer - 1 = 999 := by decide
    rw [h999, List.take_replicate, List.map_replicate, List.sum_const_nat]
    decide
  · rw [List.map_replicate, List.sum_const_nat]
    decide

/-- Witness for the C2 theorem at 1000 four-byte buffers. -/
theorem C2_drain_deadlock_witness :
    (List.replicate cookieBuffer ([0, 0, 0, 0] : List Nat)).length =
      cookieBuffer ∧
    (sendRun sendInit
        (List.replicate cookieBuffer ([0, 0, 0, 0] : List Nat))).stuck =
      true :=
  ⟨List.length_replicate cookieBuffer [0, 0, 0, 0],
    (C2_drain_deadlock.1 (List.replicate cookieBuffer [0, 0, 0, 0])
      (List.length_replicate cookieBuffer [0, 0, 0, 0])).1⟩

/-- Head access commutes with a non-trivial take. -/
theorem getD_zero_take (l : List Nat) (n d : Nat) (h : 0 < n) :
    (l.take n).getD 0 d = l.getD 0 d := by
  cases l with
  | nil => simp
  | cons a t =>
    cases n with
    | zero => omega
    | succ m => simp

/-- C3 is false as stated: a reply frame whose extra-length field holds
L = 2 ^ 30 makes the uint32 byte count 32 + 4 * L wrap to 32, so the
receiver reads zero additional bytes and delivers just the 32-byte header
instead of reading 4 * L additional bytes and delivering 32 + 4 * L. -/
theorem C3_counterexample :
    Get32 (c3CexFrame.drop 4) = 2 ^ 30 ∧
    readResponse c3CexFrame =
      ReadOutcome.ok (RawResponse.rreply 0 c3CexFrame) [] ∧
    c3CexFrame.length = 32 ∧ 32 ≠ 32 + 4 * 2 ^ 30 := by decide

/-- C3 amended: for every reply frame whose extra-length value L satisfies
32 + 4 * L < 2 ^ 32 (so the uint32 byte count does not wrap), the receiver
reads exactly 4 * L additional bytes and delivers the 32-byte header
concatenated with those bytes, 32 + 4 * L bytes in total (exactly the header
when L = 0). -/
theorem C3_amended_reply_framing (input : List Nat)
    (h32 : 32 ≤ input.length) (hb0 : input.getD 0 0 = 1)
    (hL : 32 + 4 * Get32 ((input.take 32).drop 4) < 2 ^ 32)
    (havail : 4 * Get32 ((input.take 32).drop 4) ≤ (input.drop 32).length) :
    readResponse input =
      ReadOutcome.ok
        (RawResponse.rreply (Get16 ((input.take 32).drop 2))
          (input.take 32 ++
            (input.drop 32).take (4 * Get32 ((input.take 32).drop 4))))
        (input.drop (32 + 4 * Get32 ((input.take 32).drop 4))) ∧
    (input.take 32 ++
        (input.drop 32).take (4 * Get32 ((input.take 32).drop 4))).length =
      32 + 4 * Get32 ((input.take 32).drop 4) := by
  constructor
  · rw [readResponse, if_neg (by omega)]
    dsimp only
    have hhead : (input.take 32).getD 0 0 = 1 := by
      rw [getD_zero_take input 32 0 (by omega), hb0]
    rw [hhead]
    rw [if_neg (by omega), if_pos rfl]
    by_cases hz : 0 < Get32 ((input.take 32).drop 4)
    · rw [if_pos hz]
      have hmod : (32 + Get32 ((input.take 32).drop 4) * 4) % 2 ^ 32 =
          32 + Get32 ((input.take 32).drop 4) * 4 := by
        apply Nat.mod_eq_of_lt
        omega
      rw [hmod]
      rw [if_neg (by omega)]
      rw [if_neg (by omega)]
      have h4 : 32 + Get32 ((input.take 32).drop 4) * 4 - 32 =
          4 * Get32 ((input.take 32).drop 4) := by omega
      rw [h4, List.drop_drop]
    · rw [if_neg hz]
      have hz0 : Get32 ((input.take 32).drop 4) = 0 := by omega
      rw [hz0]
      simp
  · rw [List.length_drop] at havail
    rw [List.length_append, List.length_take, List.length_take,
      List.length_drop]
    omega

/-- Witness for the amended C3 theorem at a 36-byte input whose reply frame
carries extra length 1. -/
theorem C3_amended_reply_framing_witness :
    32 ≤ c3WitInput.length ∧ c3WitInput.getD 0 0 = 1 ∧
    readResponse c3WitInput =
      ReadOutcome.ok
        (RawResponse.rreply (Get16 ((c3WitInput.take 32).drop 2))
          (c3WitInput.take 32 ++
            (c3WitInput.drop 32).take
              (4 * Get32 ((c3WitInput.take 32).drop 4))))
        (c3WitInput.drop (32 + 4 * Get32 ((c3WitInput.take 32).drop 4))) :=
  ⟨by decide, by decide,
    (C3_amended_reply_framing c3WitInput (by decide) (by decide) (by decide)
      (by decide)).1⟩

/-- Disjoint little-endian recombination: when a < 2 ^ n, the bitwise or of
a with b <<< n equals 2 ^ n * b + a. -/
theorem lor_shiftLeft_eq (n a b : Nat) (h : a < 2 ^ n) :
    a ||| (b <<< n) = 2 ^ n * b + a := by
  apply Nat.eq_of_testBit_eq
  intro i
  rw [Nat.testBit_or, Nat.testBit_shiftLeft, Nat.testBit_mul_pow_two_add b h i]
  by_cases hi : i < n
  · have hni : ¬ n ≤ i := by omega
    simp [hi, hni]
  · have hge : n ≤ i := by omega
    have ha : a.testBit i = false :=
      Nat.testBit_lt_two_pow
        (lt_of_lt_of_le h (Nat.pow_le_pow_right (by omega) hge))
    simp [hi, hge, ha]

/-- C9: Put16 followed by Get16 returns the written uint16 value on any
buffer of length at least 2, and Put32 followed by Get32 returns the written
uint32 value on any buffer of length at least 4. -/
theorem C9_put_get_roundtrip :
    (∀ (v : Nat) (buf : List Nat), v < 2 ^ 16 → 2 ≤ buf.length →
      Get16 (Put16 buf v) = v) ∧
    (∀ (v : Nat) (buf : List Nat), v < 2 ^ 32 → 4 ≤ buf.length →
      Get32 (Put32 buf v) = v) := by
  have p8 : (2 : Nat) ^ 8 = 256 := by norm_num
  have p16 : (2 : Nat) ^ 16 = 65536 := by norm_num
  have p24 : (2 : Nat) ^ 24 = 16777216 := by norm_num
  have p32 : (2 : Nat) ^ 32 = 4294967296 := by norm_num
  constructor
  · intro v buf hv hlen
    rcases buf with _ | ⟨b0, _ | ⟨b1, t⟩⟩
    · simp at hlen
    · simp at hlen
    show (v % 256) ||| (((v >>> 8) % 256) <<< 8) = v
    have e8 : v >>> 8 = v / 256 := by
      rw [Nat.shiftRight_eq_div_pow, p8]
    rw [e8, lor_shiftLeft_eq 8 (v % 256) (v / 256 % 256) (by rw [p8]; omega)]
    rw [p8]
    rw [p16] at hv
    omega
  · intro v buf hv hlen
    rcases buf with _ | ⟨b0, _ | ⟨b1, _ | ⟨b2, _ | ⟨b3, t⟩⟩⟩⟩
    · simp at hlen
    · simp at hlen
    · simp at hlen
    · simp at hlen
    show (((v % 256) ||| (((v >>> 8) % 256) <<< 8)) |||
        (((v >>> 16) % 256) <<< 16)) ||| (((v >>> 24) % 256) <<< 24) = v
    have e8 : v >>> 8 = v / 256 := by
      rw [Nat.shiftRight_eq_div_pow, p8]
    have e16 : v >>> 16 = v / 65536 := by
      rw [Nat.shiftRight_eq_div_pow, p16]
    have e24 : v >>> 24 = v / 16777216 := by
      rw [Nat.shiftRight_eq_div_pow, p24]
    rw [e8, e16, e24]
    rw [lor_shiftLeft_eq 8 (v % 256) (v / 256 % 256) (by rw [p8]; omega)]
    rw [lor_shiftLeft_eq 16 (2 ^ 8 * (v / 256 % 256) + v % 256)
      (v / 65536 % 256) (by rw [p8, p16]; omega)]
    rw [lor_shiftLeft_eq 24
      (2 ^ 16 * (v / 65536 % 256) + (2 ^ 8 * (v / 256 % 256) + v % 256))
      (v / 16777216 % 256) (by rw [p8, p16, p24]; omega)]
    rw [p8, p16, p24]
    rw [p32] at hv
    omega

/-- Witness for the C9 theorem at v = 0xABCD on a 2-byte buffer and
v = 0xDEADBEEF on a 4-byte buffer. -/
theorem C9_put_get_roundtrip_witness :
    (43981 < 2 ^ 16 ∧ 2 ≤ ([0, 0] : List Nat).length ∧
      Get16 (Put16 [0, 0] 43981) = 43981) ∧
    (3735928559 < 2 ^ 32 ∧ 4 ≤ ([0, 0, 0, 0] : List Nat).length ∧
      Get32 (Put32 [0, 0, 0, 0] 3735928559) = 3735928559) :=
  ⟨⟨by decide, by decide,
      C9_put_get_roundtrip.1 43981 [0, 0] (by decide) (by decide)⟩,
    ⟨by decide, by decide,
      C9_put_get_roundtrip.2 3735928559 [0, 0, 0, 0] (by decide)
        (by decide)⟩⟩

end Xgb
